import Mathlib

/-!
Shallow embedding of the RKMPP MJPEG encoder/decoder library
(sources: the encoder translation unit, decoder.c, the utility
translation unit, rkmpp_mjpeg.h, encoder_internal.h, decoder_internal.h).

Conventions of the embedding:
* C `uint32_t` arithmetic is `Nat` with an explicit `% 2^32` exactly where
  the C expression can wrap (`width * height * 3`).
* The 64-bit statistics counters are modelled as `Nat`; every increment the
  code performs is by a `uint32_t` quantity, and no claim exercises 2^64
  increments, so wrap-around is unreachable in all modelled behaviours.
* A C pointer argument is `Option` of the pointee; a byte buffer is a
  function `Nat → Nat` (byte at index) with its size passed separately,
  exactly as C passes pointer + length. `memcpy(dst, src, n)` becomes the
  pointwise overwrite of the first `n` indices.
* Output pointers that a call may leave unwritten are returned as
  `Option` values (`none` = the call returned before writing them).
* The mock MPP backend in the sources (`mpp_create`, `mpp_init`,
  `mpp_buffer_group_get_internal`, ...) always succeeds, and `malloc` failure
  is not modelled, so `create` succeeds exactly when validation passes.
-/

namespace Rkmpp

/-- The `RkmppStatus` enumeration of rkmpp_mjpeg.h. -/
inductive RkmppStatus where
  | ok
  | errInvalidParam
  | errMemory
  | errInit
  | errEncode
  | errDecode
  | errTimeout
  | errNotReady
  | errUnknown
  deriving DecidableEq, Repr

/-- The fixed integer value of each status code (rkmpp_mjpeg.h). -/
def statusCode : RkmppStatus → Int
  | .ok => 0
  | .errInvalidParam => -1
  | .errMemory => -2
  | .errInit => -3
  | .errEncode => -4
  | .errDecode => -5
  | .errTimeout => -6
  | .errNotReady => -7
  | .errUnknown => -99

/-- The modulus of C `uint32_t` arithmetic, 2^32. -/
def U32 : Nat := 4294967296

/-- Embeds `calculate_nv12_size` (identical in the encoder unit and decoder.c):
`(width * height * 3) / 2` in `uint32_t` arithmetic. -/
def calculate_nv12_size (width height : Nat) : Nat :=
  width * height % U32 * 3 % U32 / 2

/-- Embeds `rkmpp_get_nv12_size` from the utility unit: 0 when a dimension is 0,
otherwise the NV12 formula. -/
def rkmpp_get_nv12_size (width height : Nat) : Nat :=
  if width = 0 ∨ height = 0 then 0
  else width * height % U32 * 3 % U32 / 2

/-- Embeds `RkmppEncoderConfig` from rkmpp_mjpeg.h. -/
structure RkmppEncoderConfig where
  width : Nat
  height : Nat
  fps : Nat
  bitrate : Nat
  quality : Nat
  gop : Nat
  deriving DecidableEq, Repr

/-- Embeds `RkmppDecoderConfig` from rkmpp_mjpeg.h. -/
structure RkmppDecoderConfig where
  max_width : Nat
  max_height : Nat
  output_format : Nat
  deriving DecidableEq, Repr

/-- Embeds `RkmppFrameInfo` from rkmpp_mjpeg.h. -/
structure RkmppFrameInfo where
  width : Nat
  height : Nat
  format : Nat
  timestamp : Nat
  deriving DecidableEq, Repr

/-- Embeds `struct RkmppEncoder` from encoder_internal.h, restricted to the fields
the public operations read or write (the opaque MPP handles carry no
observable state of their own in the mock backend). -/
structure RkmppEncoder where
  width : Nat
  height : Nat
  fps : Nat
  bitrate : Nat
  quality : Nat
  frames_encoded : Nat
  bytes_encoded : Nat
  initialized : Bool
  deriving DecidableEq, Repr

/-- Embeds `struct RkmppDecoder` from decoder_internal.h, same restriction. -/
structure RkmppDecoder where
  max_width : Nat
  max_height : Nat
  output_format : Nat
  frames_decoded : Nat
  bytes_decoded : Nat
  initialized : Bool
  deriving DecidableEq, Repr

/-- Embeds `validate_encoder_config`: `true` models the C return value 0 (valid). -/
def validate_encoder_config (config : Option RkmppEncoderConfig) : Bool :=
  match config with
  | none => false
  | some c =>
    if c.width < 16 || c.width > 4096 || c.height < 16 || c.height > 4096 then
      false
    else if c.fps < 1 || c.fps > 120 then
      false
    else if c.quality > 100 then
      false
    else
      true

/-- Embeds `validate_decoder_config`: `true` models the C return value 0 (valid). -/
def validate_decoder_config (config : Option RkmppDecoderConfig) : Bool :=
  match config with
  | none => false
  | some c =>
    if c.max_width < 16 || c.max_width > 4096 ||
       c.max_height < 16 || c.max_height > 4096 then
      false
    else
      true

/-- Embeds `rkmpp_encoder_create`: NULL config or failed validation yields no
session; otherwise the session record is zero-filled by `memset`, the config
is stored with `quality ? quality : 80`, the (always-successful) mock MPP
setup runs, and the session becomes Ready (`initialized = 1`). -/
def rkmpp_encoder_create (config : Option RkmppEncoderConfig) :
    Option RkmppEncoder :=
  match config with
  | none => none
  | some c =>
    if validate_encoder_config (some c) = false then
      none
    else
      some { width := c.width
             height := c.height
             fps := c.fps
             bitrate := c.bitrate
             quality := if c.quality ≠ 0 then c.quality else 80
             frames_encoded := 0
             bytes_encoded := 0
             initialized := true }

/-- Embeds `rkmpp_decoder_create`, analogous to the encoder. -/
def rkmpp_decoder_create (config : Option RkmppDecoderConfig) :
    Option RkmppDecoder :=
  match config with
  | none => none
  | some c =>
    if validate_decoder_config (some c) = false then
      none
    else
      some { max_width := c.max_width
             max_height := c.max_height
             output_format := c.output_format
             frames_decoded := 0
             bytes_decoded := 0
             initialized := true }

/-- Everything `rkmpp_encoder_encode` writes: the returned status, the
session it leaves behind (the input session, with statistics updated on
success), the output byte buffer, and the value stored through `jpeg_len`
(`none` when the call returns before writing it). -/
structure EncodeOut where
  status : RkmppStatus
  session : Option RkmppEncoder
  out_buf : Option (Nat → Nat)
  out_len : Option Nat

/-- Embeds `rkmpp_encoder_encode`: NULL-pointer checks, the Ready check
(`RKMPP_ERR_INIT` when `initialized` is unset), the two
`calculate_nv12_size` buffer-size checks, then the mock transform: copy
`min(jpeg_size, nv12_size)` bytes, set `*jpeg_len`, bump the statistics. -/
def rkmpp_encoder_encode (encoder : Option RkmppEncoder)
    (nv12_data : Option (Nat → Nat)) (nv12_size : Nat)
    (jpeg_data : Option (Nat → Nat)) (jpeg_size : Nat)
    (jpeg_len_present : Bool) : EncodeOut :=
  match encoder, nv12_data, jpeg_data with
  | some enc, some nv12, some jpeg =>
    if jpeg_len_present = false then
      { status := .errInvalidParam, session := some enc,
        out_buf := some jpeg, out_len := none }
    else if enc.initialized = false then
      { status := .errInit, session := some enc,
        out_buf := some jpeg, out_len := none }
    else
      let expected_size := calculate_nv12_size enc.width enc.height
      if nv12_size < expected_size then
        { status := .errInvalidParam, session := some enc,
          out_buf := some jpeg, out_len := none }
      else if jpeg_size < expected_size then
        { status := .errInvalidParam, session := some enc,
          out_buf := some jpeg, out_len := none }
      else
        let copy_size := if jpeg_size < nv12_size then jpeg_size else nv12_size
        { status := .ok
          session := some { enc with
            frames_encoded := enc.frames_encoded + 1
            bytes_encoded := enc.bytes_encoded + copy_size }
          out_buf := some fun i => if i < copy_size then nv12 i else jpeg i
          out_len := some copy_size }
  | _, _, _ =>
    { status := .errInvalidParam, session := encoder,
      out_buf := jpeg_data, out_len := none }

/-- Everything `rkmpp_decoder_decode` writes, analogous to `EncodeOut`,
plus the `RkmppFrameInfo` it populates on success. -/
structure DecodeOut where
  status : RkmppStatus
  session : Option RkmppDecoder
  out_buf : Option (Nat → Nat)
  out_len : Option Nat
  frame_info : Option RkmppFrameInfo

/-- Embeds `rkmpp_decoder_decode`: NULL-pointer checks, the Ready check
(`RKMPP_ERR_INIT`), the `jpeg_size == 0` check, then the mock transform:
copy `min(nv12_size, jpeg_size)` bytes, set `*nv12_len`, fill the frame
info from the session configuration, bump the statistics. -/
def rkmpp_decoder_decode (decoder : Option RkmppDecoder)
    (jpeg_data : Option (Nat → Nat)) (jpeg_size : Nat)
    (nv12_data : Option (Nat → Nat)) (nv12_size : Nat)
    (nv12_len_present : Bool) (frame_info_present : Bool) : DecodeOut :=
  match decoder, jpeg_data, nv12_data with
  | some dec, some jpeg, some nv12 =>
    if nv12_len_present = false ∨ frame_info_present = false then
      { status := .errInvalidParam, session := some dec,
        out_buf := some nv12, out_len := none, frame_info := none }
    else if dec.initialized = false then
      { status := .errInit, session := some dec,
        out_buf := some nv12, out_len := none, frame_info := none }
    else if jpeg_size = 0 then
      { status := .errInvalidParam, session := some dec,
        out_buf := some nv12, out_len := none, frame_info := none }
    else
      let copy_size := if nv12_size < jpeg_size then nv12_size else jpeg_size
      { status := .ok
        session := some { dec with
          frames_decoded := dec.frames_decoded + 1
          bytes_decoded := dec.bytes_decoded + copy_size }
        out_buf := some fun i => if i < copy_size then jpeg i else nv12 i
        out_len := some copy_size
        frame_info := some { width := dec.max_width, height := dec.max_height,
                             format := 0, timestamp := 0 } }
  | _, _, _ =>
    { status := .errInvalidParam, session := decoder,
      out_buf := nv12_data, out_len := none, frame_info := none }

/-- Embeds `rkmpp_encoder_get_stats`: the two output pointers may each be absent;
the returned options are the values written through them. -/
def rkmpp_encoder_get_stats (encoder : Option RkmppEncoder)
    (frames_present bytes_present : Bool) :
    RkmppStatus × Option Nat × Option Nat :=
  match encoder with
  | none => (.errInvalidParam, none, none)
  | some enc =>
    (.ok,
     if frames_present then some enc.frames_encoded else none,
     if bytes_present then some enc.bytes_encoded else none)

/-- Embeds `rkmpp_decoder_get_stats`, analogous. -/
def rkmpp_decoder_get_stats (decoder : Option RkmppDecoder)
    (frames_present bytes_present : Bool) :
    RkmppStatus × Option Nat × Option Nat :=
  match decoder with
  | none => (.errInvalidParam, none, none)
  | some dec =>
    (.ok,
     if frames_present then some dec.frames_decoded else none,
     if bytes_present then some dec.bytes_decoded else none)

/-- Relation `EncTrace enc ps enc1` holds when a finite sequence of
`rkmpp_encoder_encode` calls, each returning `RKMPP_OK`, leads from session
state `enc` to `enc'`, producing the sizes `ps` (the values written through
`jpeg_len`), with arbitrary buffer arguments at each call. -/
inductive EncTrace : RkmppEncoder → List Nat → RkmppEncoder → Prop
  | nil (enc : RkmppEncoder) : EncTrace enc [] enc
  | cons (enc enc1 enc2 : RkmppEncoder) (nv12 jpeg : Nat → Nat)
      (nv12_size jpeg_size p : Nat) (ps : List Nat)
      (hst : (rkmpp_encoder_encode (some enc) (some nv12) nv12_size
                (some jpeg) jpeg_size true).status = .ok)
      (hse : (rkmpp_encoder_encode (some enc) (some nv12) nv12_size
                (some jpeg) jpeg_size true).session = some enc1)
      (hln : (rkmpp_encoder_encode (some enc) (some nv12) nv12_size
                (some jpeg) jpeg_size true).out_len = some p)
      (rest : EncTrace enc1 ps enc2) :
      EncTrace enc (p :: ps) enc2

/-- Relation `DecTrace dec ps dec1`, analogous for `rkmpp_decoder_decode`. -/
inductive DecTrace : RkmppDecoder → List Nat → RkmppDecoder → Prop
  | nil (dec : RkmppDecoder) : DecTrace dec [] dec
  | cons (dec dec1 dec2 : RkmppDecoder) (jpeg nv12 : Nat → Nat)
      (jpeg_size nv12_size p : Nat) (ps : List Nat)
      (hst : (rkmpp_decoder_decode (some dec) (some jpeg) jpeg_size
                (some nv12) nv12_size true true).status = .ok)
      (hse : (rkmpp_decoder_decode (some dec) (some jpeg) jpeg_size
                (some nv12) nv12_size true true).session = some dec1)
      (hln : (rkmpp_decoder_decode (some dec) (some jpeg) jpeg_size
                (some nv12) nv12_size true true).out_len = some p)
      (rest : DecTrace dec1 ps dec2) :
      DecTrace dec (p :: ps) dec2

/-- The round-trip scenario of the spec, run through the embedded
operations: create an encoder (640x480@30, quality 80) and a decoder
(max 640x480), encode a constant-byte raw frame of size
`rkmpp_get_nv12_size 640 480` into an output of the same capacity, then
decode the produced bitstream at its produced size.  Records both
statuses, the produced bitstream size, and the frame info. -/
def roundtrip640x480 :
    RkmppStatus × Option Nat × RkmppStatus × Option RkmppFrameInfo :=
  let sz := rkmpp_get_nv12_size 640 480
  match rkmpp_encoder_create
          (some { width := 640, height := 480, fps := 30, bitrate := 0,
                  quality := 80, gop := 0 }),
        rkmpp_decoder_create
          (some { max_width := 640, max_height := 480, output_format := 0 })
  with
  | some enc, some dec =>
    let r1 := rkmpp_encoder_encode (some enc) (some fun _ => 42) sz
                (some fun _ => 0) sz true
    match r1.out_buf, r1.out_len with
    | some bits, some len =>
      let r2 := rkmpp_decoder_decode (some dec) (some bits) len
                  (some fun _ => 0) sz true true
      (r1.status, r1.out_len, r2.status, r2.frame_info)
    | _, _ => (r1.status, none, .errUnknown, none)
  | _, _ => (.errUnknown, none, .errUnknown, none)

/-! Helper lemmas. -/

/-- The utility `rkmpp_get_nv12_size` and the translation-unit-local
`calculate_nv12_size` agree everywhere: the zero-dimension guard of the
former is redundant, since the formula already yields 0 there. -/
theorem rkmpp_get_nv12_size_eq_calc (w h : Nat) :
    rkmpp_get_nv12_size w h = calculate_nv12_size w h := by
  unfold rkmpp_get_nv12_size calculate_nv12_size
  rcases Nat.eq_zero_or_pos w with hw | hw
  · subst hw; simp
  · rcases Nat.eq_zero_or_pos h with hh | hh
    · subst hh; simp
    · rw [if_neg]; omega

/-- Within the validated dimension range the `uint32_t` NV12 formula does
not wrap. -/
theorem calculate_nv12_size_no_overflow (w h : Nat)
    (hw : w ≤ 4096) (hh : h ≤ 4096) :
    calculate_nv12_size w h = w * h * 3 / 2 := by
  unfold calculate_nv12_size U32
  have h1 : w * h ≤ 16777216 := Nat.mul_le_mul hw hh
  have h2 : w * h % 4294967296 = w * h := Nat.mod_eq_of_lt (by omega)
  rw [h2]
  have h3 : w * h * 3 % 4294967296 = w * h * 3 := Nat.mod_eq_of_lt (by omega)
  rw [h3]

/-- A successful encoder create yields a session with zeroed statistics. -/
theorem rkmpp_encoder_create_some_stats (c : RkmppEncoderConfig)
    (enc : RkmppEncoder) (h : rkmpp_encoder_create (some c) = some enc) :
    enc.frames_encoded = 0 ∧ enc.bytes_encoded = 0 := by
  simp only [rkmpp_encoder_create] at h
  split_ifs at h
  all_goals simp only [Option.some.injEq] at h
  all_goals subst h
  all_goals exact ⟨rfl, rfl⟩

/-- A successful decoder create yields a session with zeroed statistics. -/
theorem rkmpp_decoder_create_some_stats (c : RkmppDecoderConfig)
    (dec : RkmppDecoder) (h : rkmpp_decoder_create (some c) = some dec) :
    dec.frames_decoded = 0 ∧ dec.bytes_decoded = 0 := by
  simp only [rkmpp_decoder_create] at h
  split_ifs at h
  all_goals simp only [Option.some.injEq] at h
  all_goals subst h
  all_goals exact ⟨rfl, rfl⟩

/-- An `RKMPP_OK` encode call advanced the statistics by exactly one frame
and by the produced size. -/
theorem rkmpp_encoder_encode_ok_stats (enc enc1 : RkmppEncoder)
    (nv12 jpeg : Nat → Nat) (nsz jsz p : Nat)
    (hst : (rkmpp_encoder_encode (some enc) (some nv12) nsz
              (some jpeg) jsz true).status = .ok)
    (hse : (rkmpp_encoder_encode (some enc) (some nv12) nsz
              (some jpeg) jsz true).session = some enc1)
    (hln : (rkmpp_encoder_encode (some enc) (some nv12) nsz
              (some jpeg) jsz true).out_len = some p) :
    enc1.frames_encoded = enc.frames_encoded + 1 ∧
    enc1.bytes_encoded = enc.bytes_encoded + p := by
  simp only [rkmpp_encoder_encode] at hst hse hln
  split_ifs at hst hse hln
  all_goals injection hse with hse2
  all_goals injection hln with hln2
  all_goals subst hse2
  all_goals subst hln2
  all_goals exact ⟨rfl, rfl⟩

/-- An `RKMPP_OK` decode call advanced the statistics by exactly one frame
and by the produced size. -/
theorem rkmpp_decoder_decode_ok_stats (dec dec1 : RkmppDecoder)
    (jpeg nv12 : Nat → Nat) (jsz nsz p : Nat)
    (hst : (rkmpp_decoder_decode (some dec) (some jpeg) jsz
              (some nv12) nsz true true).status = .ok)
    (hse : (rkmpp_decoder_decode (some dec) (some jpeg) jsz
              (some nv12) nsz true true).session = some dec1)
    (hln : (rkmpp_decoder_decode (some dec) (some jpeg) jsz
              (some nv12) nsz true true).out_len = some p) :
    dec1.frames_decoded = dec.frames_decoded + 1 ∧
    dec1.bytes_decoded = dec.bytes_decoded + p := by
  simp only [rkmpp_decoder_decode] at hst hse hln
  split_ifs at hst hse hln
  all_goals injection hse with hse2
  all_goals injection hln with hln2
  all_goals subst hse2
  all_goals subst hln2
  all_goals exact ⟨rfl, rfl⟩

/-- Along a trace of successful encode calls, the counters advance by the
number of calls and the sum of the produced sizes. -/
theorem encTrace_stats {enc enc' : RkmppEncoder} {ps : List Nat}
    (tr : EncTrace enc ps enc') :
    enc'.frames_encoded = enc.frames_encoded + ps.length ∧
    enc'.bytes_encoded = enc.bytes_encoded + ps.sum := by
  induction tr with
  | nil e => simp
  | cons enc enc1 enc2 nv12 jpeg nsz jsz p ps hst hse hln rest ih =>
    obtain ⟨h1, h2⟩ :=
      rkmpp_encoder_encode_ok_stats enc enc1 nv12 jpeg nsz jsz p hst hse hln
    simp only [List.length_cons, List.sum_cons]
    omega

/-- Along a trace of successful decode calls, the counters advance by the
number of calls and the sum of the produced sizes. -/
theorem decTrace_stats {dec dec' : RkmppDecoder} {ps : List Nat}
    (tr : DecTrace dec ps dec') :
    dec'.frames_decoded = dec.frames_decoded + ps.length ∧
    dec'.bytes_decoded = dec.bytes_decoded + ps.sum := by
  induction tr with
  | nil d => simp
  | cons dec dec1 dec2 jpeg nv12 jsz nsz p ps hst hse hln rest ih =>
    obtain ⟨h1, h2⟩ :=
      rkmpp_decoder_decode_ok_stats dec dec1 jpeg nv12 jsz nsz p hst hse hln
    simp only [List.length_cons, List.sum_cons]
    omega

/-! Claim theorems. -/

/-- C1: with an encoder created at width=640, height=480 and a decoder
created at max_width=640, max_height=480, encoding a constant-byte raw
buffer of size rawFrameSize(640,480) = 460800 with output capacity 460800
returns Ok producing 460800 bytes, and decoding the produced bitstream at
the produced size with output capacity 460800 returns Ok with
frameDescriptor.width = 640 and frameDescriptor.height = 480. -/
theorem C1_roundtrip_640x480 :
    rkmpp_get_nv12_size 640 480 = 460800 ∧
    roundtrip640x480 =
      (RkmppStatus.ok, some 460800, RkmppStatus.ok,
       some { width := 640, height := 480, format := 0, timestamp := 0 }) :=
  ⟨rfl, rfl⟩

/-- C2: on a Ready encoder session, an encode call whose raw input size is
below rawFrameSize(width, height) returns InvalidParam and leaves the
session (its framesProcessed and bytesProcessed counters included)
unchanged; the same holds when the output capacity is below
rawFrameSize(width, height). -/
theorem C2_encode_undersized (enc : RkmppEncoder) (nv12 jpeg : Nat → Nat)
    (nv12_size jpeg_size : Nat) (hready : enc.initialized = true) :
    (nv12_size < rkmpp_get_nv12_size enc.width enc.height →
      (rkmpp_encoder_encode (some enc) (some nv12) nv12_size
          (some jpeg) jpeg_size true).status = .errInvalidParam ∧
      (rkmpp_encoder_encode (some enc) (some nv12) nv12_size
          (some jpeg) jpeg_size true).session = some enc) ∧
    (jpeg_size < rkmpp_get_nv12_size enc.width enc.height →
      (rkmpp_encoder_encode (some enc) (some nv12) nv12_size
          (some jpeg) jpeg_size true).status = .errInvalidParam ∧
      (rkmpp_encoder_encode (some enc) (some nv12) nv12_size
          (some jpeg) jpeg_size true).session = some enc) := by
  have hcalc := rkmpp_get_nv12_size_eq_calc enc.width enc.height
  refine ⟨fun hlt => ?_, fun hlt => ?_⟩
  · rw [hcalc] at hlt
    simp [rkmpp_encoder_encode, hready, hlt]
  · rw [hcalc] at hlt
    by_cases hn : nv12_size < calculate_nv12_size enc.width enc.height
    · simp [rkmpp_encoder_encode, hready, hn]
    · simp [rkmpp_encoder_encode, hready, hn, hlt]

/-- Witness for C2 at a concrete Ready 16x16 session
(rawFrameSize = 384) with a 383-byte raw input. -/
theorem C2_encode_undersized_witness :
    (rkmpp_encoder_encode
        (some ⟨16, 16, 30, 0, 80, 0, 0, true⟩) (some fun _ => 7) 383
        (some fun _ => 0) 500 true).status = .errInvalidParam ∧
    (rkmpp_encoder_encode
        (some ⟨16, 16, 30, 0, 80, 0, 0, true⟩) (some fun _ => 7) 383
        (some fun _ => 0) 500 true).session =
      some ⟨16, 16, 30, 0, 80, 0, 0, true⟩ :=
  (C2_encode_undersized ⟨16, 16, 30, 0, 80, 0, 0, true⟩
    (fun _ => 7) (fun _ => 0) 383 500 rfl).1 (by decide)

/-- C3 counterexample: a present but non-Ready session with all other
arguments present makes encode and decode return RKMPP_ERR_INIT, which is
not InvalidParam as the claim states. -/
theorem C3_counterexample_not_ready :
    (rkmpp_encoder_encode (some ⟨640, 480, 30, 0, 80, 0, 0, false⟩)
        (some fun _ => 0) 460800 (some fun _ => 0) 460800 true).status =
      RkmppStatus.errInit ∧
    (rkmpp_decoder_decode (some ⟨640, 480, 0, 0, 0, false⟩)
        (some fun _ => 0) 100 (some fun _ => 0) 460800 true true).status =
      RkmppStatus.errInit ∧
    RkmppStatus.errInit ≠ RkmppStatus.errInvalidParam :=
  ⟨rfl, rfl, by decide⟩

/-- C3 amended: for every session that is present but not Ready, an encode
or decode call with all other arguments present returns the Init status
(RKMPP_ERR_INIT), not InvalidParam. -/
theorem C3_not_ready_returns_init (enc : RkmppEncoder) (dec : RkmppDecoder)
    (nv12 jpeg cin cout : Nat → Nat) (a b c d : Nat)
    (he : enc.initialized = false) (hd : dec.initialized = false) :
    (rkmpp_encoder_encode (some enc) (some nv12) a
        (some jpeg) b true).status = .errInit ∧
    (rkmpp_decoder_decode (some dec) (some cin) c
        (some cout) d true true).status = .errInit := by
  constructor
  · simp [rkmpp_encoder_encode, he]
  · simp [rkmpp_decoder_decode, hd]

/-- Witness for the amended C3 at concrete non-Ready sessions. -/
theorem C3_not_ready_returns_init_witness :
    (rkmpp_encoder_encode (some ⟨640, 480, 30, 0, 80, 0, 0, false⟩)
        (some fun _ => 1) 460800 (some fun _ => 2) 460800 true).status =
      .errInit ∧
    (rkmpp_decoder_decode (some ⟨640, 480, 0, 0, 0, false⟩)
        (some fun _ => 3) 100 (some fun _ => 4) 460800 true true).status =
      .errInit :=
  C3_not_ready_returns_init ⟨640, 480, 30, 0, 80, 0, 0, false⟩
    ⟨640, 480, 0, 0, 0, false⟩ (fun _ => 1) (fun _ => 2) (fun _ => 3)
    (fun _ => 4) 460800 460800 100 460800 rfl rfl

/-- C4 counterexample: at width=17, height=18 (both within [16,4096]) the
product 17*18 = 306 is a multiple of 2, yet rawFrameSize(17,18) = 459 is
odd, refuting the claimed evenness for every even w*h. -/
theorem C4_counterexample_odd_size :
    16 ≤ 17 ∧ 17 ≤ 4096 ∧ 16 ≤ 18 ∧ 18 ≤ 4096 ∧ 17 * 18 % 2 = 0 ∧
    rkmpp_get_nv12_size 17 18 % 2 = 1 := by decide

/-- C4 amended: rawFrameSize is 0 when either dimension is 0; for all
w, h in [16,4096] it equals w*h*3/2 in exact arithmetic (no uint32
overflow), and the value is even whenever w*h is a multiple of 4 (rather
than 2, as the claim stated). -/
theorem C4_nv12_size_formula (w h : Nat) :
    rkmpp_get_nv12_size 0 h = 0 ∧
    rkmpp_get_nv12_size w 0 = 0 ∧
    (16 ≤ w → w ≤ 4096 → 16 ≤ h → h ≤ 4096 →
      rkmpp_get_nv12_size w h = w * h * 3 / 2 ∧
      (w * h % 4 = 0 → rkmpp_get_nv12_size w h % 2 = 0)) := by
  refine ⟨by simp [rkmpp_get_nv12_size], by simp [rkmpp_get_nv12_size],
    fun hw1 hw2 hh1 hh2 => ?_⟩
  have heq : rkmpp_get_nv12_size w h = w * h * 3 / 2 := by
    rw [rkmpp_get_nv12_size_eq_calc, calculate_nv12_size_no_overflow w h hw2 hh2]
  refine ⟨heq, fun hmul => ?_⟩
  rw [heq]
  omega

/-- Witness for C4 (amended) at w = 640, h = 480. -/
theorem C4_nv12_size_formula_witness :
    rkmpp_get_nv12_size 640 480 = 640 * 480 * 3 / 2 ∧
    (640 * 480 % 4 = 0 → rkmpp_get_nv12_size 640 480 % 2 = 0) :=
  (C4_nv12_size_formula 640 480).2.2 (by decide) (by decide)
    (by decide) (by decide)

/-- C5: encoder create yields no session for a null configuration or any
configuration with width or height outside [16,4096], fps outside [1,120],
or quality above 100; decoder create yields no session for a null
configuration or max dimensions outside [16,4096].  In this embedding
create has no effect other than its return value, so returning no session
is the entire observable outcome (the C code returns before any
allocation). -/
theorem C5_create_rejects (c : RkmppEncoderConfig) (d : RkmppDecoderConfig) :
    rkmpp_encoder_create none = none ∧
    rkmpp_decoder_create none = none ∧
    (c.width < 16 ∨ 4096 < c.width ∨ c.height < 16 ∨ 4096 < c.height ∨
      c.fps < 1 ∨ 120 < c.fps ∨ 100 < c.quality →
      rkmpp_encoder_create (some c) = none) ∧
    (d.max_width < 16 ∨ 4096 < d.max_width ∨
      d.max_height < 16 ∨ 4096 < d.max_height →
      rkmpp_decoder_create (some d) = none) := by
  refine ⟨rfl, rfl, fun hbad => ?_, fun hbad => ?_⟩
  · have hval : validate_encoder_config (some c) = false := by
      simp only [validate_encoder_config]
      split_ifs with h1 h2 h3
      · rfl
      · rfl
      · rfl
      · exfalso
        simp only [Bool.or_eq_true, decide_eq_true_eq] at h1 h2
        omega
    simp [rkmpp_encoder_create, hval]
  · have hval : validate_decoder_config (some d) = false := by
      simp only [validate_decoder_config]
      split_ifs with h1
      · rfl
      · exfalso
        simp only [Bool.or_eq_true, decide_eq_true_eq] at h1
        omega
    simp [rkmpp_decoder_create, hval]

/-- Witness for C5 at a 15-pixel-wide encoder config and a 4097-pixel-tall
decoder config. -/
theorem C5_create_rejects_witness :
    rkmpp_encoder_create (some ⟨15, 480, 30, 0, 80, 0⟩) = none ∧
    rkmpp_decoder_create (some ⟨640, 4097, 0⟩) = none :=
  ⟨(C5_create_rejects ⟨15, 480, 30, 0, 80, 0⟩ ⟨640, 4097, 0⟩).2.2.1
      (by decide),
   (C5_create_rejects ⟨15, 480, 30, 0, 80, 0⟩ ⟨640, 4097, 0⟩).2.2.2
      (by decide)⟩

/-- C6: immediately after a successful create, getStats reports
framesProcessed = 0 and bytesProcessed = 0, for encoder and decoder alike;
and after any trace of N successful encode (respectively decode) calls on
that session, getStats reports framesProcessed = N and bytesProcessed
equal to the sum of the produced sizes of those calls. -/
theorem C6_stats_accumulate (ce : RkmppEncoderConfig)
    (cd : RkmppDecoderConfig) (enc enc' : RkmppEncoder)
    (dec dec' : RkmppDecoder) (pse psd : List Nat)
    (hce : rkmpp_encoder_create (some ce) = some enc)
    (hcd : rkmpp_decoder_create (some cd) = some dec)
    (tre : EncTrace enc pse enc')
    (trd : DecTrace dec psd dec') :
    rkmpp_encoder_get_stats (some enc) true true = (.ok, some 0, some 0) ∧
    rkmpp_decoder_get_stats (some dec) true true = (.ok, some 0, some 0) ∧
    rkmpp_encoder_get_stats (some enc') true true =
      (.ok, some pse.length, some pse.sum) ∧
    rkmpp_decoder_get_stats (some dec') true true =
      (.ok, some psd.length, some psd.sum) := by
  obtain ⟨hef, heb⟩ := rkmpp_encoder_create_some_stats ce enc hce
  obtain ⟨hdf, hdb⟩ := rkmpp_decoder_create_some_stats cd dec hcd
  obtain ⟨hef2, heb2⟩ := encTrace_stats tre
  obtain ⟨hdf2, hdb2⟩ := decTrace_stats trd
  refine ⟨?_, ?_, ?_, ?_⟩ <;>
    simp [rkmpp_encoder_get_stats, rkmpp_decoder_get_stats,
      hef, heb, hdf, hdb, hef2, heb2, hdf2, hdb2]

/-- Witness for C6: a fresh 640x480 encoder and decoder, one successful
encode producing 460800 bytes and one successful decode producing 100
bytes. -/
theorem C6_stats_accumulate_witness :
    rkmpp_encoder_get_stats (some ⟨640, 480, 30, 0, 80, 0, 0, true⟩)
      true true = (.ok, some 0, some 0) ∧
    rkmpp_decoder_get_stats (some ⟨640, 480, 0, 0, 0, true⟩)
      true true = (.ok, some 0, some 0) ∧
    rkmpp_encoder_get_stats (some ⟨640, 480, 30, 0, 80, 1, 460800, true⟩)
      true true = (.ok, some [460800].length, some [460800].sum) ∧
    rkmpp_decoder_get_stats (some ⟨640, 480, 0, 1, 100, true⟩)
      true true = (.ok, some [100].length, some [100].sum) :=
  C6_stats_accumulate ⟨640, 480, 30, 0, 80, 0⟩ ⟨640, 480, 0⟩
    ⟨640, 480, 30, 0, 80, 0, 0, true⟩ ⟨640, 480, 30, 0, 80, 1, 460800, true⟩
    ⟨640, 480, 0, 0, 0, true⟩ ⟨640, 480, 0, 1, 100, true⟩
    [460800] [100] rfl rfl
    (EncTrace.cons ⟨640, 480, 30, 0, 80, 0, 0, true⟩
      ⟨640, 480, 30, 0, 80, 1, 460800, true⟩
      ⟨640, 480, 30, 0, 80, 1, 460800, true⟩
      (fun _ => 5) (fun _ => 0) 460800 460800 460800 [] rfl rfl rfl
      (EncTrace.nil ⟨640, 480, 30, 0, 80, 1, 460800, true⟩))
    (DecTrace.cons ⟨640, 480, 0, 0, 0, true⟩ ⟨640, 480, 0, 1, 100, true⟩
      ⟨640, 480, 0, 1, 100, true⟩
      (fun _ => 6) (fun _ => 0) 100 460800 100 [] rfl rfl rfl
      (DecTrace.nil ⟨640, 480, 0, 1, 100, true⟩))

/-- C7: quality = 0 is never a rejection cause for encoder create — with
the other fields in range the session is created — and the stored quality
defaults to 80 in that case; for 1 ≤ quality ≤ 100 the stored quality is
the configured value. -/
theorem C7_quality_default (c : RkmppEncoderConfig)
    (hw1 : 16 ≤ c.width) (hw2 : c.width ≤ 4096)
    (hh1 : 16 ≤ c.height) (hh2 : c.height ≤ 4096)
    (hf1 : 1 ≤ c.fps) (hf2 : c.fps ≤ 120) :
    (c.quality = 0 →
      rkmpp_encoder_create (some c) =
        some ⟨c.width, c.height, c.fps, c.bitrate, 80, 0, 0, true⟩) ∧
    (1 ≤ c.quality → c.quality ≤ 100 →
      rkmpp_encoder_create (some c) =
        some ⟨c.width, c.height, c.fps, c.bitrate, c.quality, 0, 0, true⟩) := by
  constructor
  · intro hq
    have hval : validate_encoder_config (some c) = true := by
      simp only [validate_encoder_config]
      split_ifs with h1 h2 h3
      · exfalso
        simp only [Bool.or_eq_true, decide_eq_true_eq] at h1
        omega
      · exfalso
        simp only [Bool.or_eq_true, decide_eq_true_eq] at h2
        omega
      · exfalso
        omega
      · rfl
    simp [rkmpp_encoder_create, hval, hq]
  · intro hq1 hq2
    have hval : validate_encoder_config (some c) = true := by
      simp only [validate_encoder_config]
      split_ifs with h1 h2 h3
      · exfalso
        simp only [Bool.or_eq_true, decide_eq_true_eq] at h1
        omega
      · exfalso
        simp only [Bool.or_eq_true, decide_eq_true_eq] at h2
        omega
      · exfalso
        omega
      · rfl
    have hne : c.quality ≠ 0 := by omega
    simp [rkmpp_encoder_create, hval, hne]

/-- Witness for C7: quality 0 stores 80; quality 55 stores 55. -/
theorem C7_quality_default_witness :
    rkmpp_encoder_create (some ⟨640, 480, 30, 0, 0, 0⟩) =
      some ⟨640, 480, 30, 0, 80, 0, 0, true⟩ ∧
    rkmpp_encoder_create (some ⟨640, 480, 30, 0, 55, 0⟩) =
      some ⟨640, 480, 30, 0, 55, 0, 0, true⟩ :=
  ⟨(C7_quality_default ⟨640, 480, 30, 0, 0, 0⟩ (by decide) (by decide)
      (by decide) (by decide) (by decide) (by decide)).1 rfl,
   (C7_quality_default ⟨640, 480, 30, 0, 55, 0⟩ (by decide) (by decide)
      (by decide) (by decide) (by decide) (by decide)).2 (by decide)
      (by decide)⟩

/-- C8 counterexample: with a present but non-Ready decoder session, all
pointers present and compressedSize = 0, decode returns RKMPP_ERR_INIT —
not InvalidParam as the claim requires for every compressedSize = 0
call. -/
theorem C8_counterexample_size_zero_not_ready :
    (rkmpp_decoder_decode (some ⟨640, 480, 0, 0, 0, false⟩)
        (some fun _ => 0) 0 (some fun _ => 0) 460800 true true).status =
      RkmppStatus.errInit ∧
    RkmppStatus.errInit ≠ RkmppStatus.errInvalidParam :=
  ⟨rfl, by decide⟩

/-- C8 amended: decode returns InvalidParam whenever any of its pointer
arguments is absent, and — for a Ready session — when compressedSize = 0;
in all these cases the session it leaves behind is unchanged (statistics
included).  (For a present but non-Ready session, compressedSize = 0
yields RKMPP_ERR_INIT instead, since the Ready check precedes the size
check.) -/
theorem C8_decode_invalid_param (dec : RkmppDecoder) (jpeg nv12 : Nat → Nat)
    (jsz nsz : Nat) :
    (rkmpp_decoder_decode none (some jpeg) jsz
        (some nv12) nsz true true).status = .errInvalidParam ∧
    ((rkmpp_decoder_decode (some dec) none jsz
        (some nv12) nsz true true).status = .errInvalidParam ∧
     (rkmpp_decoder_decode (some dec) none jsz
        (some nv12) nsz true true).session = some dec) ∧
    ((rkmpp_decoder_decode (some dec) (some jpeg) jsz
        none nsz true true).status = .errInvalidParam ∧
     (rkmpp_decoder_decode (some dec) (some jpeg) jsz
        none nsz true true).session = some dec) ∧
    ((rkmpp_decoder_decode (some dec) (some jpeg) jsz
        (some nv12) nsz false true).status = .errInvalidParam ∧
     (rkmpp_decoder_decode (some dec) (some jpeg) jsz
        (some nv12) nsz false true).session = some dec) ∧
    ((rkmpp_decoder_decode (some dec) (some jpeg) jsz
        (some nv12) nsz true false).status = .errInvalidParam ∧
     (rkmpp_decoder_decode (some dec) (some jpeg) jsz
        (some nv12) nsz true false).session = some dec) ∧
    (dec.initialized = true →
      (rkmpp_decoder_decode (some dec) (some jpeg) 0
          (some nv12) nsz true true).status = .errInvalidParam ∧
      (rkmpp_decoder_decode (some dec) (some jpeg) 0
          (some nv12) nsz true true).session = some dec) := by
  refine ⟨rfl, ⟨rfl, rfl⟩, ⟨rfl, rfl⟩, ?_, ?_, fun hready => ?_⟩
  · constructor <;> simp [rkmpp_decoder_decode]
  · constructor <;> simp [rkmpp_decoder_decode]
  · constructor <;> simp [rkmpp_decoder_decode, hready]

/-- Witness for C8 (amended) at a Ready decoder session with
compressedSize = 0. -/
theorem C8_decode_invalid_param_witness :
    (rkmpp_decoder_decode (some ⟨640, 480, 0, 0, 0, true⟩)
        (some fun _ => 9) 0 (some fun _ => 0) 460800 true true).status =
      .errInvalidParam ∧
    (rkmpp_decoder_decode (some ⟨640, 480, 0, 0, 0, true⟩)
        (some fun _ => 9) 0 (some fun _ => 0) 460800 true true).session =
      some ⟨640, 480, 0, 0, 0, true⟩ :=
  (C8_decode_invalid_param ⟨640, 480, 0, 0, 0, true⟩ (fun _ => 9)
    (fun _ => 0) 0 460800).2.2.2.2.2 rfl

/-- C9: on a Ready decoder session, any decode call with all pointer
arguments present and compressedSize > 0 returns Ok; in particular the
DecodeFailed status is never produced, whatever the bytes of the
compressed input are. -/
theorem C9_decode_always_ok (dec : RkmppDecoder) (jpeg nv12 : Nat → Nat)
    (jsz nsz : Nat) (hready : dec.initialized = true) (hsz : 0 < jsz) :
    (rkmpp_decoder_decode (some dec) (some jpeg) jsz
        (some nv12) nsz true true).status = .ok ∧
    (rkmpp_decoder_decode (some dec) (some jpeg) jsz
        (some nv12) nsz true true).status ≠ .errDecode := by
  have hne : ¬jsz = 0 := by omega
  constructor <;> simp [rkmpp_decoder_decode, hready, hne]

/-- Witness for C9 at a concrete Ready session and a 1-byte input. -/
theorem C9_decode_always_ok_witness :
    (rkmpp_decoder_decode (some ⟨640, 480, 0, 0, 0, true⟩)
        (some fun _ => 255) 1 (some fun _ => 0) 460800 true true).status =
      .ok ∧
    (rkmpp_decoder_decode (some ⟨640, 480, 0, 0, 0, true⟩)
        (some fun _ => 255) 1 (some fun _ => 0) 460800 true true).status ≠
      .errDecode :=
  C9_decode_always_ok ⟨640, 480, 0, 0, 0, true⟩ (fun _ => 255) (fun _ => 0)
    1 460800 rfl (by decide)

/-- C10: every successful decode call populates the frame descriptor with
the configured max_width of the session, its and max_height, format 0 and
timestamp 0 — independent of the compressed input — and writes
producedSize = min(rawOutputCapacity, compressedSize), which never
exceeds rawOutputCapacity. -/
theorem C10_decode_descriptor (dec : RkmppDecoder) (jpeg nv12 : Nat → Nat)
    (jsz nsz : Nat) (lp fp : Bool)
    (hok : (rkmpp_decoder_decode (some dec) (some jpeg) jsz
              (some nv12) nsz lp fp).status = .ok) :
    (rkmpp_decoder_decode (some dec) (some jpeg) jsz
        (some nv12) nsz lp fp).frame_info =
      some ⟨dec.max_width, dec.max_height, 0, 0⟩ ∧
    (rkmpp_decoder_decode (some dec) (some jpeg) jsz
        (some nv12) nsz lp fp).out_len = some (min nsz jsz) ∧
    min nsz jsz ≤ nsz := by
  simp only [rkmpp_decoder_decode] at hok ⊢
  split_ifs at hok ⊢ with h1 h2 h3
  all_goals exact ⟨rfl, congrArg some (by omega), by omega⟩

/-- Witness for C10: a successful decode with a 2-byte input into a
460800-byte output buffer produces min(460800, 2) = 2 bytes and the
640x480 descriptor. -/
theorem C10_decode_descriptor_witness :
    (rkmpp_decoder_decode (some ⟨640, 480, 0, 0, 0, true⟩)
        (some fun _ => 8) 2 (some fun _ => 0) 460800 true true).frame_info =
      some ⟨640, 480, 0, 0⟩ ∧
    (rkmpp_decoder_decode (some ⟨640, 480, 0, 0, 0, true⟩)
        (some fun _ => 8) 2 (some fun _ => 0) 460800 true true).out_len =
      some (min 460800 2) ∧
    min 460800 2 ≤ 460800 :=
  C10_decode_descriptor ⟨640, 480, 0, 0, 0, true⟩ (fun _ => 8) (fun _ => 0)
    2 460800 true true rfl

end Rkmpp
